import Mathlib

/-!
Shallow embedding of the question-extraction pipeline:

* `src/Project5/app/main.py` — regex-config loading (`load_regex_config`),
  pattern compilation (`compile_pattern`) and two-level question/option
  extraction (`parse_questions_with_config`);
* `src/Project4/app/main.py` — `compile_regex_from_config`;
* `src/Project8/app/schemas.py`, `repository.py`, `main.py` — typed question
  records, validation, and polymorphic persistence.

The Python regex engine itself is abstracted: a compiled pattern is modelled
as its set of named groups together with its `finditer` scan, which for each
text returns the engine-ordered list of non-overlapping matches (each match
carrying its full-match text `group(0)` and its `groupdict()`).  Everything
the repository code does *around* the engine is translated literally.
-/

set_option maxHeartbeats 1000000

namespace QPipe

/-- Python exceptions that can escape the embedded code paths.
`httpException` models `fastapi.HTTPException(status_code, detail)`;
`attributeError` models a raw `AttributeError` (e.g. calling `.strip()` on
`None` or `.get` on a non-dict); `validationError` models a pydantic
`ValidationError` carrying the list of per-field error messages;
`dbError` models an exception raised by the storage engine. -/
inductive PyExc where
  | httpException (status : Nat) (detail : String)
  | attributeError (msg : String)
  | validationError (msgs : List String)
  | dbError (msg : String)
  deriving Repr, DecidableEq

/-- Whitespace characters recognised by Python `str.strip()` (ASCII part). -/
def isPySpace (c : Char) : Bool :=
  c = ' ' || c = '\t' || c = '\n' || c = '\r' || c = '\x0b' || c = '\x0c'

/-- Model of Python `str.strip()`: drop leading and trailing whitespace. -/
def pyStrip (s : String) : String :=
  ⟨((s.data.dropWhile isPySpace).reverse.dropWhile isPySpace).reverse⟩

/-- Model of Python `str.upper()` on the ASCII range (flag names are ASCII). -/
def pyUpper (s : String) : String :=
  ⟨s.data.map Char.toUpper⟩

theorem dropWhile_dropWhile (p : Char → Bool) (l : List Char) :
    (l.dropWhile p).dropWhile p = l.dropWhile p := by
  induction l with
  | nil => rfl
  | cons a l ih =>
    by_cases h : p a
    · simp [List.dropWhile, h, ih]
    · simp [List.dropWhile, h]

theorem dropWhile_of_append_eq (p : Char → Bool) (t u l : List Char)
    (hl : l.dropWhile p = l) (htu : t ++ u = l) : t.dropWhile p = t := by
  cases t with
  | nil => rfl
  | cons a t' =>
    have hpa : p a = false := by
      subst htu
      by_cases h : p a
      · exfalso
        have hlen := (List.dropWhile_sublist (p := p) (l := t' ++ u)).length_le
        simp only [List.cons_append] at hl
        rw [List.dropWhile_cons, if_pos h] at hl
        have : (t' ++ u).length + 1 ≤ (t' ++ u).length := by
          calc (t' ++ u).length + 1 = (a :: (t' ++ u)).length := rfl
            _ = ((t' ++ u).dropWhile p).length := by rw [hl]
            _ ≤ (t' ++ u).length := hlen
        omega
      · exact eq_false_of_ne_true h
    simp [List.dropWhile, hpa]

/-- The trailing-trim step, on character lists. -/
def trimR (p : Char → Bool) (l : List Char) : List Char :=
  ((l.reverse).dropWhile p).reverse

theorem trimR_append (p : Char → Bool) (l : List Char) :
    trimR p l ++ (l.reverse.takeWhile p).reverse = l := by
  have h := List.takeWhile_append_dropWhile (p := p) (l := l.reverse)
  have h2 : (l.reverse.takeWhile p ++ l.reverse.dropWhile p).reverse = l := by
    rw [h, List.reverse_reverse]
  rw [List.reverse_append] at h2
  exact h2

theorem trimR_trimR (p : Char → Bool) (l : List Char) :
    trimR p (trimR p l) = trimR p l := by
  unfold trimR
  rw [List.reverse_reverse, dropWhile_dropWhile]

theorem dropWhile_trimR (p : Char → Bool) (l : List Char)
    (hl : l.dropWhile p = l) : (trimR p l).dropWhile p = trimR p l := by
  exact dropWhile_of_append_eq p (trimR p l) (l.reverse.takeWhile p).reverse l hl
    (trimR_append p l)

/-- `str.strip()` is idempotent. -/
theorem pyStrip_idem (s : String) : pyStrip (pyStrip s) = pyStrip s := by
  show (String.mk _) = (String.mk _)
  unfold pyStrip
  have h1 : ((s.data.dropWhile isPySpace).reverse.dropWhile isPySpace).reverse
      = trimR isPySpace (s.data.dropWhile isPySpace) := rfl
  simp only [h1]
  have hd : (trimR isPySpace (s.data.dropWhile isPySpace)).dropWhile isPySpace
      = trimR isPySpace (s.data.dropWhile isPySpace) :=
    dropWhile_trimR isPySpace _ (dropWhile_dropWhile isPySpace s.data)
  rw [hd]
  rw [show ((trimR isPySpace (s.data.dropWhile isPySpace)).reverse.dropWhile isPySpace).reverse
      = trimR isPySpace (trimR isPySpace (s.data.dropWhile isPySpace)) from rfl]
  rw [trimR_trimR]

/-! ### Flag compilation (Project5 `compile_pattern`, Project4 shares the loop)

Source (`src/Project5/app/main.py`):
```
_FLAG_MAP = {
    "IGNORECASE": re.IGNORECASE, "MULTILINE": re.MULTILINE, "DOTALL": re.DOTALL,
    "UNICODE": re.UNICODE, "ASCII": re.ASCII, "VERBOSE": re.VERBOSE,
}

def compile_pattern(pattern, flags):
    flags_val = 0
    for name in flags or []:
        up = name.upper()
        if up not in _FLAG_MAP:
            raise HTTPException(400, f"Unknown regex flag: \x7bname\x7d")
        flags_val |= _FLAG_MAP[up]
    try:
        return re.compile(pattern, flags_val)
    except re.error as exc:
        raise HTTPException(400, f"Invalid regex: \x7bexc\x7d")
```
The numeric values are CPython re module constants: IGNORECASE = 2,
MULTILINE = 8, DOTALL = 16, UNICODE = 32, VERBOSE = 64, ASCII = 256. -/

def _FLAG_MAP : List (String × Nat) :=
  [("IGNORECASE", 2), ("MULTILINE", 8), ("DOTALL", 16),
   ("UNICODE", 32), ("ASCII", 256), ("VERBOSE", 64)]

/-- One regex match, as the Python code observes it: `group(0)` and
`groupdict()` (a named group maps to `none` when it did not participate). -/
structure ReMatch where
  group0 : String
  groupdict : List (String × Option String)
  deriving Repr, DecidableEq

/-- Abstract compiled pattern: its named groups (`re.Pattern.groupindex`
keys) and the `finditer` scan, returning for each input text the
engine-ordered list of non-overlapping, leftmost-first matches. -/
structure RePattern where
  groupindex : List String
  finditer : String → List ReMatch

/-- The flag-accumulation loop of `compile_pattern` and
`compile_regex_from_config`: left-to-right, uppercases each name, fails on
the first name not in `_FLAG_MAP`, otherwise ORs the flag value in. -/
def flagsLoop (acc : Nat) : List String → Except PyExc Nat
  | [] => .ok acc
  | name :: rest =>
    match _FLAG_MAP.lookup (pyUpper name) with
    | none => .error (.httpException 400 ("Unknown regex flag: " ++ name))
    | some v => flagsLoop (acc ||| v) rest

/-- `compile_pattern` from Project5.  `recompile` abstracts `re.compile`
(the regex engine), a deterministic function of the expression and the
combined flag value, which may fail with the 400 invalid-regex error.
`flags = none` models passing `None`; `flags or []` maps both `none` and
the empty list to `[]`. -/
def compile_pattern (recompile : String → Nat → Except PyExc RePattern)
    (pattern : String) (flags : Option (List String)) : Except PyExc RePattern :=
  match flagsLoop 0 (flags.getD []) with
  | .error e => .error e
  | .ok v => recompile pattern v

/-! ### JSON values and the two config loaders

`load_regex_config` (Project5) and `compile_regex_from_config` (Project4)
read a JSON file.  The filesystem and the JSON grammar are abstracted into a
`CfgSource`: either the path does not resolve to a regular file, or reading
succeeds but `json.loads` fails, or parsing succeeds and yields a `Json`
value.  From the parsed value on, the Python code is translated literally,
including the fact that `data.get(...)` on a non-dict raises a raw
`AttributeError`. -/

/-- Parsed JSON values (numbers restricted to integers; no claim needs
floats). -/
inductive Json where
  | null
  | jbool (b : Bool)
  | jnum (n : Int)
  | jstr (s : String)
  | jarr (xs : List Json)
  | jobj (kvs : List (String × Json))

/-- Outcome of resolving and reading a configuration source. -/
inductive CfgSource where
  | missing
  | invalidJson
  | parsed (data : Json)

/-- The config record `load_regex_config` returns: the JSON dict after the
key checks and the two `setdefault` calls (flag lists kept as raw JSON
values, exactly as the Python dict holds them). -/
structure RegexConfig where
  question_regex : String
  option_regex : String
  question_flags : Json
  option_flags : Json

/-- Project5 `load_regex_config`:
```
def load_regex_config(cfg_path):
    if not cfg_path.exists() or not cfg_path.is_file():
        raise HTTPException(404, f"Config file not found at ...")
    try:
        data = json.loads(cfg_path.read_text(encoding="utf-8"))
    except Exception as exc:
        raise HTTPException(400, f"Failed to parse config JSON: \x7bexc\x7d")
    if not isinstance(data.get("question_regex"), str) or not data["question_regex"].strip():
        raise HTTPException(400, "Config is missing question_regex string.")
    if not isinstance(data.get("option_regex"), str) or not data["option_regex"].strip():
        raise HTTPException(400, "Config is missing option_regex string.")
    data.setdefault("question_flags", [])
    data.setdefault("option_flags", [])
    return data
```
Note `data.get("question_regex")` raises `AttributeError` when `data` is not
a dict (list, string, number, bool or null). -/
def load_regex_config : CfgSource → Except PyExc RegexConfig
  | .missing => .error (.httpException 404 "Config file not found")
  | .invalidJson => .error (.httpException 400 "Failed to parse config JSON")
  | .parsed data =>
    match data with
    | .jobj kvs =>
      match kvs.lookup "question_regex" with
      | some (.jstr q) =>
        if pyStrip q = "" then
          .error (.httpException 400 "Config is missing question_regex string.")
        else
          match kvs.lookup "option_regex" with
          | some (.jstr o) =>
            if pyStrip o = "" then
              .error (.httpException 400 "Config is missing option_regex string.")
            else
              .ok { question_regex := q, option_regex := o,
                    question_flags := (kvs.lookup "question_flags").getD (.jarr []),
                    option_flags := (kvs.lookup "option_flags").getD (.jarr []) }
          | _ => .error (.httpException 400 "Config is missing option_regex string.")
      | _ => .error (.httpException 400 "Config is missing question_regex string.")
    | _ => .error (.attributeError "object has no attribute get")

/-- Python truthiness of a JSON-decoded value (`if flags:`). -/
def pyTruthy : Json → Bool
  | .null => false
  | .jbool b => b
  | .jnum n => n != 0
  | .jstr s => s != ""
  | .jarr xs => !xs.isEmpty
  | .jobj kvs => !kvs.isEmpty

/-- `all(isinstance(x, str) for x in xs)`, returning the strings. -/
def allStrings : List Json → Option (List String)
  | [] => some []
  | .jstr s :: rest => (allStrings rest).map (s :: ·)
  | _ => none

/-- Project4 `compile_regex_from_config`:
```
def compile_regex_from_config(config_path):
    if not config_path.exists() or not config_path.is_file():
        raise HTTPException(404, ...)
    try:
        data = json.loads(config_path.read_text(encoding="utf-8"))
    except Exception as exc:
        raise HTTPException(400, f"Failed to parse config JSON: \x7bexc\x7d")
    pattern = data.get("regex")
    if not isinstance(pattern, str) or not pattern.strip():
        raise HTTPException(400, "Config is missing regex string.")
    flags_val = 0
    flags = data.get("flags", [])
    if flags:
        if not isinstance(flags, list) or not all(isinstance(x, str) for x in flags):
            raise HTTPException(400, "flags must be a list of strings.")
        for name in flags:
            if name.upper() not in _FLAG_MAP:
                raise HTTPException(400, f"Unknown regex flag: \x7bname\x7d")
            flags_val |= _FLAG_MAP[name.upper()]
    try:
        return re.compile(pattern, flags_val)
    except re.error as exc:
        raise HTTPException(400, f"Invalid regex: \x7bexc\x7d")
```
-/
def compile_regex_from_config (recompile : String → Nat → Except PyExc RePattern) :
    CfgSource → Except PyExc RePattern
  | .missing => .error (.httpException 404 "Config file not found")
  | .invalidJson => .error (.httpException 400 "Failed to parse config JSON")
  | .parsed data =>
    match data with
    | .jobj kvs =>
      match kvs.lookup "regex" with
      | some (.jstr p) =>
        if pyStrip p = "" then
          .error (.httpException 400 "Config is missing regex string.")
        else
          let flags := (kvs.lookup "flags").getD (.jarr [])
          if pyTruthy flags then
            match flags with
            | .jarr xs =>
              match allStrings xs with
              | some names =>
                match flagsLoop 0 names with
                | .error e => .error e
                | .ok v => recompile p v
              | none => .error (.httpException 400 "flags must be a list of strings.")
            | _ => .error (.httpException 400 "flags must be a list of strings.")
          else recompile p 0
      | _ => .error (.httpException 400 "Config is missing regex string.")
    | _ => .error (.attributeError "object has no attribute get")

/-! ### Two-level extraction (Project5 `parse_questions_with_config`)

Source:
```
def parse_questions_with_config(full_text, cfg):
    q_pat = compile_pattern(cfg["question_regex"], cfg.get("question_flags"))
    o_pat = compile_pattern(cfg["option_regex"], cfg.get("option_flags"))
    results = []
    for q_match in q_pat.finditer(full_text):
        block = q_match.group(0)
        q_text = q_match.groupdict().get("question", block).strip()
        opts = []
        for o_match in o_pat.finditer(block):
            opt_text = o_match.groupdict().get("option", o_match.group(0)).strip()
            if opt_text:
                opts.append(opt_text)
        results.append(\x7b"question": q_text, "options": opts\x7d)
    return results
```
The compilation of the two patterns is `compile_pattern` above; the loops
are embedded here over the already-compiled `RePattern`s. -/

/-- One output item of `parse_questions_with_config`. -/
structure QBlock where
  question : String
  options : List String
  deriving Repr, DecidableEq

/-- `gd.get(key, default)` on a `groupdict()`: `some default` when the
pattern declares no group named `key`; otherwise the stored capture, which
is `none` when the declared group did not participate in the match. -/
def groupdictGet (gd : List (String × Option String)) (key : String)
    (default : String) : Option String :=
  match gd.lookup key with
  | none => some default
  | some v => v

/-- `(...).strip()` applied to the result: stripping `None` raises
`AttributeError`, stripping a string trims it. -/
def pyStripOpt : Option String → Except PyExc String
  | none => .error (.attributeError "NoneType object has no attribute strip")
  | some s => .ok (pyStrip s)

/-- Inner loop: `for o_match in o_pat.finditer(block)` — extract, trim, keep
only truthy (non-empty) strings, in match order. -/
def optsLoop : List ReMatch → Except PyExc (List String)
  | [] => .ok []
  | o_match :: rest =>
    match pyStripOpt (groupdictGet o_match.groupdict "option" o_match.group0) with
    | .error e => .error e
    | .ok opt_text =>
      match optsLoop rest with
      | .error e => .error e
      | .ok tl => .ok (if opt_text = "" then tl else opt_text :: tl)

/-- Outer loop: one `QBlock` per outer match, in match order; the inner scan
runs on `q_match.group(0)`, the text of the block itself. -/
def qblocksLoop (o_pat : RePattern) : List ReMatch → Except PyExc (List QBlock)
  | [] => .ok []
  | q_match :: rest =>
    let block := q_match.group0
    match pyStripOpt (groupdictGet q_match.groupdict "question" block) with
    | .error e => .error e
    | .ok q_text =>
      match optsLoop (o_pat.finditer block) with
      | .error e => .error e
      | .ok opts =>
        match qblocksLoop o_pat rest with
        | .error e => .error e
        | .ok tl => .ok ({ question := q_text, options := opts } :: tl)

/-- `parse_questions_with_config` over already-compiled matchers. -/
def parse_questions_with_config (q_pat o_pat : RePattern) (full_text : String) :
    Except PyExc (List QBlock) :=
  qblocksLoop o_pat (q_pat.finditer full_text)

/-- A `RePattern` is well-formed when every match it ever yields carries a
`groupdict()` whose keys are exactly the named groups of the pattern —
which is how the Python regex engine behaves. -/
def RePattern.Wf (pat : RePattern) : Prop :=
  ∀ t, ∀ m ∈ pat.finditer t, m.groupdict.map Prod.fst = pat.groupindex

/-! ### Project8: typed question records, validation, persistence

`src/Project8/app/schemas.py` declares the discriminated input union
(`SubjectiveIn` / `TrueFalseIn` / `MCQIn`), validated by pydantic before the
route handler runs; `repository.py` builds the ORM object; `main.py`
(`create_question`) runs `repo.add` + `db.flush` + `db.commit` inside a
try/except that rolls the session back on any storage error. -/

/-- Common input fields (`QuestionBaseIn` in `schemas.py`). -/
structure QuestionBaseIn where
  subject_name : String
  chapter_name : Option String
  question_text : String
  source_file : Option String
  page_start : Option Int
  page_end : Option Int
  deriving Repr, DecidableEq

/-- The discriminated union `QuestionIn = Union[SubjectiveIn, TrueFalseIn,
MCQIn]`, keyed by the literal `type` field. -/
inductive QuestionIn where
  | subjective (base : QuestionBaseIn) (suggested_answer : Option String)
  | true_false (base : QuestionBaseIn) (option_true_label option_false_label : String)
      (correct_is_true : Option Bool)
  | mcq (base : QuestionBaseIn) (answer_options : List String)
  deriving Repr, DecidableEq

/-- Pydantic field checks on the base fields, in declaration order, each
contributing an error message when violated: `subject_name` and
`question_text` have `min_length=1`; `page_start` and `page_end` have
`gt=0` when present. -/
def validateBase (b : QuestionBaseIn) : List String :=
  (if b.subject_name.length < 1 then ["subject_name: ensure this value has at least 1 characters"] else [])
  ++ (if b.question_text.length < 1 then ["question_text: ensure this value has at least 1 characters"] else [])
  ++ (match b.page_start with
      | some n => if n ≤ 0 then ["page_start: ensure this value is greater than 0"] else []
      | none => [])
  ++ (match b.page_end with
      | some n => if n ≤ 0 then ["page_end: ensure this value is greater than 0"] else []
      | none => [])

/-- Pydantic validation of a `QuestionIn` payload: collects every field
error; for `mcq` the validator `_must_have_at_least_two` adds
`"MCQ requires at least two options."` when `not v or len(v) < 2`.
Validation succeeds with the payload unchanged iff no error fired. -/
def validateQuestionIn : QuestionIn → Except (List String) QuestionIn
  | .subjective b sa =>
    let errs := validateBase b
    if errs.isEmpty then .ok (.subjective b sa) else .error errs
  | .true_false b tl fl c =>
    let errs := validateBase b
    if errs.isEmpty then .ok (.true_false b tl fl c) else .error errs
  | .mcq b opts =>
    let errs := validateBase b
      ++ (if opts.isEmpty || opts.length < 2 then ["MCQ requires at least two options."] else [])
    if errs.isEmpty then .ok (.mcq b opts) else .error errs

/-- A row of the shared base table `questions` (`models.QuestionBase`). -/
structure BaseRow where
  id : Nat
  type : String
  subject_name : String
  chapter_name : Option String
  question_text : String
  answer_options : Option (List String)
  source_file : Option String
  page_start : Option Int
  page_end : Option Int
  deriving Repr, DecidableEq

/-- A row of `questions_subjective`. -/
structure SubjectiveRow where
  id : Nat
  suggested_answer : Option String
  deriving Repr, DecidableEq

/-- A row of `questions_truefalse`. -/
structure TrueFalseRow where
  id : Nat
  option_true_label : String
  option_false_label : String
  correct_is_true : Option Bool
  deriving Repr, DecidableEq

/-- A row of `questions_mcq`. -/
structure MCQRow where
  id : Nat
  correct_indices : Option (List Int)
  deriving Repr, DecidableEq

/-- The four tables of the single-table-polymorphism schema. -/
structure DB where
  questions : List BaseRow
  questions_subjective : List SubjectiveRow
  questions_truefalse : List TrueFalseRow
  questions_mcq : List MCQRow
  deriving Repr, DecidableEq

/-- The INSERT statements a `db.add(obj)` of a joined-inheritance object
issues at flush time: the base-table insert followed by the variant
extension-table insert. -/
inductive WTarget where
  | baseTable
  | subjectiveTable
  | truefalseTable
  | mcqTable
  deriving Repr, DecidableEq

/-- `(chapter_name or "").strip() or None` from `repository.py`. -/
def chapterNorm (c : Option String) : Option String :=
  let s := pyStrip (c.getD "")
  if s = "" then none else some s

/-- The discriminator tag stored for a payload (`obj.type`). -/
def typeTag : QuestionIn → String
  | .subjective _ _ => "subjective"
  | .true_false _ _ _ _ => "true_false"
  | .mcq _ _ => "mcq"

/-- The base-table row `QuestionRepository.add` builds for a payload
(common fields; `answer_options` is set only by the MCQ branch, the other
branches leave the JSON column null). -/
def mkBaseRow (id : Nat) : QuestionIn → BaseRow
  | .subjective b _ =>
    { id := id, type := "subjective", subject_name := pyStrip b.subject_name,
      chapter_name := chapterNorm b.chapter_name, question_text := b.question_text,
      answer_options := none, source_file := b.source_file,
      page_start := b.page_start, page_end := b.page_end }
  | .true_false b _ _ _ =>
    { id := id, type := "true_false", subject_name := pyStrip b.subject_name,
      chapter_name := chapterNorm b.chapter_name, question_text := b.question_text,
      answer_options := none, source_file := b.source_file,
      page_start := b.page_start, page_end := b.page_end }
  | .mcq b opts =>
    { id := id, type := "mcq", subject_name := pyStrip b.subject_name,
      chapter_name := chapterNorm b.chapter_name, question_text := b.question_text,
      answer_options := some opts, source_file := b.source_file,
      page_start := b.page_start, page_end := b.page_end }

/-- Which extension table a payload's variant row goes to. -/
def extTarget : QuestionIn → WTarget
  | .subjective _ _ => .subjectiveTable
  | .true_false _ _ _ _ => .truefalseTable
  | .mcq _ _ => .mcqTable

/-- Apply the extension-table insert for a payload to a database state. -/
def insertExt (db : DB) (id : Nat) : QuestionIn → DB
  | .subjective _ sa =>
    { db with questions_subjective :=
        db.questions_subjective ++ [{ id := id, suggested_answer := sa }] }
  | .true_false _ tl fl c =>
    { db with questions_truefalse :=
        db.questions_truefalse ++ [{ id := id, option_true_label := tl,
                                     option_false_label := fl, correct_is_true := c }] }
  | .mcq _ _ =>
    { db with questions_mcq := db.questions_mcq ++ [{ id := id, correct_indices := none }] }

/-- Auto-generated identity: one more than the largest id in the base table. -/
def nextId (db : DB) : Nat :=
  db.questions.foldr (fun r m => max r.id m) 0 + 1

/-- `QuestionRepository.add` followed by `db.flush()`: builds the ORM object
for the payload's variant and executes the base-table and extension-table
INSERTs inside the open transaction.  `fail` injects a storage failure on a
chosen table's insert (the fault-injection point for the atomicity claim):
a failing insert raises, leaving the transaction to be rolled back by the
caller. -/
def repo_add (fail : WTarget → Bool) (db : DB) (q : QuestionIn) :
    Except PyExc (DB × Nat) :=
  let id := nextId db
  if fail .baseTable then
    .error (.dbError "insert into questions failed")
  else
    let db1 : DB := { db with questions := db.questions ++ [mkBaseRow id q] }
    if fail (extTarget q) then
      .error (.dbError "insert into extension table failed")
    else
      .ok (insertExt db1 id q, id)

/-- `create_question` from Project8 `main.py`: the route-handler body.
```
try:
    obj = repo.add(db, payload)
    db.commit()
except Exception as exc:
    db.rollback()
    raise HTTPException(500, f"Failed to store question: \x7bexc\x7d")
return \x7b"message": "created", "id": obj.id, "type": obj.type\x7d
```
On any storage failure the whole unit of work is rolled back, so the
returned state is the state before the call. -/
def create_question (fail : WTarget → Bool) (db : DB) (payload : QuestionIn) :
    Except PyExc (Nat × String) × DB :=
  match repo_add fail db payload with
  | .ok (db2, id) => (.ok (id, typeTag payload), db2)
  | .error e =>
    (.error (.httpException 500 ("Failed to store question: " ++
      match e with
      | .dbError m => m
      | _ => "error")), db)

/-- The `POST /questions` boundary: pydantic validates the payload against
`QuestionIn` before `create_question` runs; a validation failure is a 422
response produced by FastAPI and the handler body (hence any database
write) is never reached. -/
def post_questions (fail : WTarget → Bool) (db : DB) (payload : QuestionIn) :
    Except PyExc (Nat × String) × DB :=
  match validateQuestionIn payload with
  | .error msgs => (.error (.validationError msgs), db)
  | .ok q => create_question fail db q

/-! ### Lemmas about flag compilation -/

/-- The flag value of a recognised name (0 for unrecognised ones). -/
def flagValU (n : String) : Nat :=
  (_FLAG_MAP.lookup (pyUpper n)).getD 0

/-- Bitwise union of a list of flag values. -/
def orFold : List Nat → Nat
  | [] => 0
  | v :: rest => v ||| orFold rest

/-- The uppercase names `_FLAG_MAP` recognises. -/
def recognizedNames : List String :=
  ["IGNORECASE", "MULTILINE", "DOTALL", "UNICODE", "ASCII", "VERBOSE"]

theorem testBit_orFold (l : List Nat) (i : Nat) :
    (orFold l).testBit i = l.any (fun v => v.testBit i) := by
  induction l with
  | nil => simp [orFold, Nat.zero_testBit]
  | cons v l ih => simp [orFold, Nat.testBit_lor, ih]

theorem toFinset_map_congr {α β : Type} [DecidableEq α] [DecidableEq β] (f : α → β)
    (l1 l2 : List α) (h : l1.toFinset = l2.toFinset) :
    (l1.map f).toFinset = (l2.map f).toFinset := by
  ext x
  simp only [List.mem_toFinset, List.mem_map]
  constructor
  · rintro ⟨a, ha, rfl⟩
    exact ⟨a, by rw [← List.mem_toFinset, ← h, List.mem_toFinset]; exact ha, rfl⟩
  · rintro ⟨a, ha, rfl⟩
    exact ⟨a, by rw [← List.mem_toFinset, h, List.mem_toFinset]; exact ha, rfl⟩

theorem orFold_eq_of_toFinset_eq (l1 l2 : List Nat) (h : l1.toFinset = l2.toFinset) :
    orFold l1 = orFold l2 := by
  apply Nat.eq_of_testBit_eq
  intro i
  rw [testBit_orFold, testBit_orFold, Bool.eq_iff_iff]
  simp only [List.any_eq_true]
  constructor
  · rintro ⟨x, hx, hb⟩
    refine ⟨x, ?_, hb⟩
    rw [← List.mem_toFinset, ← h, List.mem_toFinset]; exact hx
  · rintro ⟨x, hx, hb⟩
    refine ⟨x, ?_, hb⟩
    rw [← List.mem_toFinset, h, List.mem_toFinset]; exact hx

theorem flagsLoop_ok (l : List String)
    (h : ∀ n ∈ l, (_FLAG_MAP.lookup (pyUpper n)).isSome = true) :
    ∀ acc, flagsLoop acc l = .ok (acc ||| orFold (l.map flagValU)) := by
  induction l with
  | nil => intro acc; simp [flagsLoop, orFold]
  | cons n rest ih =>
    intro acc
    obtain ⟨v, hv⟩ := Option.isSome_iff_exists.mp (h n (by simp))
    have hrest := ih (fun m hm => h m (by simp [hm]))
    simp only [flagsLoop, hv, hrest (acc ||| v), List.map_cons, orFold]
    have hval : flagValU n = v := by simp [flagValU, hv]
    rw [hval, Nat.lor_assoc]

theorem flagsLoop_err (l : List String) :
    ∀ acc, (∃ n ∈ l, _FLAG_MAP.lookup (pyUpper n) = none) →
    ∃ bad ∈ l, _FLAG_MAP.lookup (pyUpper bad) = none ∧
      flagsLoop acc l = .error (.httpException 400 ("Unknown regex flag: " ++ bad)) := by
  induction l with
  | nil =>
    rintro acc ⟨n, hn, _⟩
    cases hn
  | cons n rest ih =>
    rintro acc ⟨m, hm, hbad⟩
    cases hL : _FLAG_MAP.lookup (pyUpper n) with
    | none => exact ⟨n, by simp, hL, by simp [flagsLoop, hL]⟩
    | some v =>
      have hmrest : m ∈ rest := by
        rcases List.mem_cons.mp hm with h | h
        · subst h; rw [hL] at hbad; cases hbad
        · exact h
      obtain ⟨bad, hb1, hb2, hb3⟩ := ih (acc ||| v) ⟨m, hmrest, hbad⟩
      exact ⟨bad, by simp [hb1], hb2, by simp [flagsLoop, hL, hb3]⟩

theorem lookup_FLAG_MAP_isSome (u : String) :
    (_FLAG_MAP.lookup u).isSome = true ↔ u ∈ recognizedNames := by
  by_cases h1 : u = "IGNORECASE"
  · subst h1; decide
  by_cases h2 : u = "MULTILINE"
  · subst h2; decide
  by_cases h3 : u = "DOTALL"
  · subst h3; decide
  by_cases h4 : u = "UNICODE"
  · subst h4; decide
  by_cases h5 : u = "ASCII"
  · subst h5; decide
  by_cases h6 : u = "VERBOSE"
  · subst h6; decide
  have e1 : (u == "IGNORECASE") = false := beq_eq_false_iff_ne.mpr h1
  have e2 : (u == "MULTILINE") = false := beq_eq_false_iff_ne.mpr h2
  have e3 : (u == "DOTALL") = false := beq_eq_false_iff_ne.mpr h3
  have e4 : (u == "UNICODE") = false := beq_eq_false_iff_ne.mpr h4
  have e5 : (u == "ASCII") = false := beq_eq_false_iff_ne.mpr h5
  have e6 : (u == "VERBOSE") = false := beq_eq_false_iff_ne.mpr h6
  simp [_FLAG_MAP, List.lookup, recognizedNames, e1, e2, e3, e4, e5, e6,
    h1, h2, h3, h4, h5, h6]

theorem allStrings_map_jstr (l : List String) :
    allStrings (l.map Json.jstr) = some l := by
  induction l with
  | nil => rfl
  | cons s rest ih => simp [allStrings, ih]

/-! ### Lemmas about the two-level extraction -/

/-- The extraction a single match contributes: the named group when the
match carries a participating capture under `key`, else the full match,
trimmed.  (This is the spec's named-group-or-full-match rule; it agrees
with the code whenever no declared group failed to participate.) -/
def extractedOf (m : ReMatch) (key : String) : String :=
  match m.groupdict.lookup key with
  | some (some s) => pyStrip s
  | _ => pyStrip m.group0

/-- The block `parse_questions_with_config` builds from one outer match:
question from the match itself, options from the inner scan of the
match's own `group(0)` text. -/
def blockOf (o_pat : RePattern) (m : ReMatch) : QBlock :=
  { question := extractedOf m "question",
    options := ((o_pat.finditer m.group0).map (fun om => extractedOf om "option")).filter
      (fun s => s != "") }

theorem lookup_isSome_iff_mem_keys {β : Type} (l : List (String × β)) (a : String) :
    (l.lookup a).isSome = true ↔ a ∈ l.map Prod.fst := by
  induction l with
  | nil => simp [List.lookup]
  | cons kv rest ih =>
    obtain ⟨k, v⟩ := kv
    by_cases h : a = k
    · subst h; simp [List.lookup]
    · have hb : (a == k) = false := beq_eq_false_iff_ne.mpr h
      simp [List.lookup, hb, ih, h]

theorem pyStripOpt_ok_of_ne (m : ReMatch) (key : String)
    (h : m.groupdict.lookup key ≠ some none) :
    pyStripOpt (groupdictGet m.groupdict key m.group0) = .ok (extractedOf m key) := by
  cases hL : m.groupdict.lookup key with
  | none => simp [groupdictGet, hL, pyStripOpt, extractedOf]
  | some v =>
    cases v with
    | none => exact absurd hL h
    | some s => simp [groupdictGet, hL, pyStripOpt, extractedOf]

theorem optsLoop_ok (ms : List ReMatch)
    (h : ∀ m ∈ ms, m.groupdict.lookup "option" ≠ some none) :
    optsLoop ms =
      .ok ((ms.map (fun m => extractedOf m "option")).filter (fun s => s != "")) := by
  induction ms with
  | nil => rfl
  | cons m rest ih =>
    have hrest := ih (fun x hx => h x (by simp [hx]))
    have hstep := pyStripOpt_ok_of_ne m "option" (h m (by simp))
    by_cases he : extractedOf m "option" = ""
    · simp [optsLoop, hstep, hrest, List.filter_cons, he]
    · simp [optsLoop, hstep, hrest, List.filter_cons, he]

theorem qblocksLoop_ok (o_pat : RePattern) (ms : List ReMatch)
    (hq : ∀ m ∈ ms, m.groupdict.lookup "question" ≠ some none)
    (ho : ∀ m ∈ ms, ∀ om ∈ o_pat.finditer m.group0,
        om.groupdict.lookup "option" ≠ some none) :
    qblocksLoop o_pat ms = .ok (ms.map (blockOf o_pat)) := by
  induction ms with
  | nil => rfl
  | cons m rest ih =>
    have hrest := ih (fun x hx => hq x (by simp [hx]))
      (fun x hx => ho x (by simp [hx]))
    have hstep := pyStripOpt_ok_of_ne m "question" (hq m (by simp))
    have hopts := optsLoop_ok (o_pat.finditer m.group0) (ho m (by simp))
    simp [qblocksLoop, hstep, hopts, hrest, blockOf]

/-- If the outer loop succeeded, no declared group failed to participate,
in the outer matches or in the inner matches of any block. -/
theorem qblocksLoop_ok_implies (o_pat : RePattern) (ms : List ReMatch)
    (bs : List QBlock) (h : qblocksLoop o_pat ms = .ok bs) :
    ∀ m ∈ ms, m.groupdict.lookup "question" ≠ some none
      ∧ ∀ om ∈ o_pat.finditer m.group0, om.groupdict.lookup "option" ≠ some none := by
  induction ms generalizing bs with
  | nil => intro m hm; cases hm
  | cons m rest ih =>
    intro x hx
    have hq : m.groupdict.lookup "question" ≠ some none := by
      intro hc
      simp [qblocksLoop, groupdictGet, hc, pyStripOpt] at h
    have hs := pyStripOpt_ok_of_ne m "question" hq
    have hopts : ∀ om ∈ o_pat.finditer m.group0,
        om.groupdict.lookup "option" ≠ some none := by
      intro om hom hc
      -- if some inner match had a non-participating declared group, optsLoop errors
      have : ∀ (l : List ReMatch), om ∈ l → ∀ r, optsLoop l ≠ .ok r := by
        intro l
        induction l with
        | nil => intro hmem; cases hmem
        | cons y ys ihy =>
          intro hmem r hr
          rcases List.mem_cons.mp hmem with hy | hy
          · subst hy
            simp [optsLoop, groupdictGet, hc, pyStripOpt] at hr
          · cases hy2 : pyStripOpt (groupdictGet y.groupdict "option" y.group0) with
            | error e => simp [optsLoop, hy2] at hr
            | ok t =>
              cases hy3 : optsLoop ys with
              | error e => simp [optsLoop, hy2, hy3] at hr
              | ok r2 => exact ihy hy r2 hy3
      cases hol : optsLoop (o_pat.finditer m.group0) with
      | error e => simp [qblocksLoop, hs, hol] at h
      | ok r => exact this _ hom r hol
    rcases List.mem_cons.mp hx with hxm | hxr
    · subst hxm; exact ⟨hq, hopts⟩
    · cases hol : optsLoop (o_pat.finditer m.group0) with
      | error e => simp [qblocksLoop, hs, hol] at h
      | ok r =>
        cases hrest : qblocksLoop o_pat rest with
        | error e => simp [qblocksLoop, hs, hol, hrest] at h
        | ok tl => exact ih tl hrest x hxr

/-- The only exception the extraction loops raise is the attribute error
from stripping a `None` capture. -/
theorem qblocksLoop_err_shape (o_pat : RePattern) (ms : List ReMatch) :
    (∃ bs, qblocksLoop o_pat ms = .ok bs)
    ∨ qblocksLoop o_pat ms =
        .error (.attributeError "NoneType object has no attribute strip") := by
  have optsShape : ∀ l : List ReMatch, (∃ r, optsLoop l = .ok r)
      ∨ optsLoop l = .error (.attributeError "NoneType object has no attribute strip") := by
    intro l
    induction l with
    | nil => exact .inl ⟨[], rfl⟩
    | cons y ys ihy =>
      cases hy : y.groupdict.lookup "option" with
      | none =>
        rcases ihy with ⟨r, hr⟩ | hr
        · exact .inl ⟨if pyStrip y.group0 = "" then r else pyStrip y.group0 :: r,
            by simp [optsLoop, groupdictGet, hy, pyStripOpt, hr]⟩
        · exact .inr (by simp [optsLoop, groupdictGet, hy, pyStripOpt, hr])
      | some v =>
        cases v with
        | none => exact .inr (by simp [optsLoop, groupdictGet, hy, pyStripOpt])
        | some s =>
          rcases ihy with ⟨r, hr⟩ | hr
          · exact .inl ⟨if pyStrip s = "" then r else pyStrip s :: r,
              by simp [optsLoop, groupdictGet, hy, pyStripOpt, hr]⟩
          · exact .inr (by simp [optsLoop, groupdictGet, hy, pyStripOpt, hr])
  induction ms with
  | nil => exact .inl ⟨[], rfl⟩
  | cons m rest ih =>
    cases hq : m.groupdict.lookup "question" with
    | none =>
      rcases optsShape (o_pat.finditer m.group0) with ⟨r, hr⟩ | hr
      · rcases ih with ⟨bs, hbs⟩ | hbs
        · exact .inl ⟨{ question := pyStrip m.group0, options := r } :: bs,
            by simp [qblocksLoop, groupdictGet, hq, pyStripOpt, hr, hbs]⟩
        · exact .inr (by simp [qblocksLoop, groupdictGet, hq, pyStripOpt, hr, hbs])
      · exact .inr (by simp [qblocksLoop, groupdictGet, hq, pyStripOpt, hr])
    | some v =>
      cases v with
      | none => exact .inr (by simp [qblocksLoop, groupdictGet, hq, pyStripOpt])
      | some s =>
        rcases optsShape (o_pat.finditer m.group0) with ⟨r, hr⟩ | hr
        · rcases ih with ⟨bs, hbs⟩ | hbs
          · exact .inl ⟨{ question := pyStrip s, options := r } :: bs,
              by simp [qblocksLoop, groupdictGet, hq, pyStripOpt, hr, hbs]⟩
          · exact .inr (by simp [qblocksLoop, groupdictGet, hq, pyStripOpt, hr, hbs])
        · exact .inr (by simp [qblocksLoop, groupdictGet, hq, pyStripOpt, hr])

/-- C2: when no declared group fails to participate, segmentation succeeds
and returns exactly one block per outer match, in match order; each block's
question text is the named `question` group when the outer rule declares
one, else the full match, trimmed. -/
theorem claim_C2 (q_pat o_pat : RePattern) (text : String)
    (hwf : q_pat.Wf)
    (hq : ∀ m ∈ q_pat.finditer text, m.groupdict.lookup "question" ≠ some none)
    (ho : ∀ m ∈ q_pat.finditer text, ∀ om ∈ o_pat.finditer m.group0,
        om.groupdict.lookup "option" ≠ some none) :
    ∃ blocks, parse_questions_with_config q_pat o_pat text = .ok blocks
      ∧ blocks.length = (q_pat.finditer text).length
      ∧ ∀ (i : Nat) (hi : i < (q_pat.finditer text).length) (hb : i < blocks.length),
          ("question" ∈ q_pat.groupindex →
            ∃ s, ((q_pat.finditer text).get ⟨i, hi⟩).groupdict.lookup "question"
                = some (some s)
              ∧ (blocks.get ⟨i, hb⟩).question = pyStrip s)
          ∧ ("question" ∉ q_pat.groupindex →
            (blocks.get ⟨i, hb⟩).question
              = pyStrip ((q_pat.finditer text).get ⟨i, hi⟩).group0) := by
  refine ⟨(q_pat.finditer text).map (blockOf o_pat),
    qblocksLoop_ok o_pat _ hq ho, by simp, ?_⟩
  intro i hi hb
  have hmem : (q_pat.finditer text).get ⟨i, hi⟩ ∈ q_pat.finditer text :=
    List.get_mem _ _ _
  have hget : ((q_pat.finditer text).map (blockOf o_pat)).get ⟨i, hb⟩
      = blockOf o_pat ((q_pat.finditer text).get ⟨i, hi⟩) := by
    simp [List.get_eq_getElem, List.getElem_map]
  have hkeys := hwf text _ hmem
  constructor
  · intro hdecl
    have hmemkeys : "question" ∈ ((q_pat.finditer text).get ⟨i, hi⟩).groupdict.map Prod.fst := by
      rw [hkeys]; exact hdecl
    have hsome := (lookup_isSome_iff_mem_keys _ "question").mpr hmemkeys
    obtain ⟨v, hv⟩ := Option.isSome_iff_exists.mp hsome
    cases v with
    | none => exact absurd hv (hq _ hmem)
    | some s =>
      refine ⟨s, hv, ?_⟩
      rw [hget]
      have hv' := hv
      simp only [List.get_eq_getElem] at hv'
      simp [blockOf, extractedOf, hv']
  · intro hnodecl
    have hnot : "question" ∉ ((q_pat.finditer text).get ⟨i, hi⟩).groupdict.map Prod.fst := by
      rw [hkeys]; exact hnodecl
    have hnone : ((q_pat.finditer text).get ⟨i, hi⟩).groupdict.lookup "question" = none := by
      cases hL : ((q_pat.finditer text).get ⟨i, hi⟩).groupdict.lookup "question" with
      | none => rfl
      | some v =>
        exact absurd ((lookup_isSome_iff_mem_keys _ "question").mp (by rw [hL]; rfl)) hnot
    rw [hget]
    have hnone' := hnone
    simp only [List.get_eq_getElem] at hnone'
    simp [blockOf, extractedOf, hnone']

/-- C3: each block's options are computed by scanning the inner matcher
over that block's own full-match text — every option fragment of a block
arises from an inner match inside the block's matched span, never from
text outside it. -/
theorem claim_C3 (q_pat o_pat : RePattern) (text : String)
    (hq : ∀ m ∈ q_pat.finditer text, m.groupdict.lookup "question" ≠ some none)
    (ho : ∀ m ∈ q_pat.finditer text, ∀ om ∈ o_pat.finditer m.group0,
        om.groupdict.lookup "option" ≠ some none) :
    ∃ blocks, parse_questions_with_config q_pat o_pat text = .ok blocks
      ∧ blocks.length = (q_pat.finditer text).length
      ∧ ∀ (i : Nat) (hi : i < (q_pat.finditer text).length) (hb : i < blocks.length),
          (blocks.get ⟨i, hb⟩).options =
            ((o_pat.finditer ((q_pat.finditer text).get ⟨i, hi⟩).group0).map
              (fun om => extractedOf om "option")).filter (fun s => s != "")
          ∧ ∀ s ∈ (blocks.get ⟨i, hb⟩).options,
              ∃ om ∈ o_pat.finditer ((q_pat.finditer text).get ⟨i, hi⟩).group0,
                s = extractedOf om "option" := by
  refine ⟨(q_pat.finditer text).map (blockOf o_pat),
    qblocksLoop_ok o_pat _ hq ho, by simp, ?_⟩
  intro i hi hb
  have hget : ((q_pat.finditer text).map (blockOf o_pat)).get ⟨i, hb⟩
      = blockOf o_pat ((q_pat.finditer text).get ⟨i, hi⟩) := by
    simp [List.get_eq_getElem, List.getElem_map]
  refine ⟨by rw [hget]; rfl, ?_⟩
  intro s hs
  rw [hget] at hs
  simp only [blockOf, List.mem_filter] at hs
  obtain ⟨om, hom, homq⟩ := List.mem_map.mp hs.1
  exact ⟨om, hom, homq.symm⟩

/-- Every extraction is the trim of some string. -/
theorem extractedOf_eq_strip (m : ReMatch) (key : String) :
    ∃ t, extractedOf m key = pyStrip t := by
  cases hL : m.groupdict.lookup key with
  | none => exact ⟨m.group0, by simp [extractedOf, hL]⟩
  | some v =>
    cases v with
    | none => exact ⟨m.group0, by simp [extractedOf, hL]⟩
    | some s => exact ⟨s, by simp [extractedOf, hL]⟩

/-- C4: every emitted option fragment is non-empty after trimming (and is
already trimmed); empty-after-trim inner matches are dropped silently, and
the kept fragments are exactly the in-order filter of the inner-match
extractions, so dropping never disturbs the order or contiguity of the
rest. -/
theorem claim_C4 (q_pat o_pat : RePattern) (text : String)
    (hq : ∀ m ∈ q_pat.finditer text, m.groupdict.lookup "question" ≠ some none)
    (ho : ∀ m ∈ q_pat.finditer text, ∀ om ∈ o_pat.finditer m.group0,
        om.groupdict.lookup "option" ≠ some none) :
    ∃ blocks, parse_questions_with_config q_pat o_pat text = .ok blocks
      ∧ (∀ b ∈ blocks, ∀ s ∈ b.options, pyStrip s = s ∧ pyStrip s ≠ "")
      ∧ ∀ (i : Nat) (hi : i < (q_pat.finditer text).length) (hb : i < blocks.length),
          (blocks.get ⟨i, hb⟩).options =
            ((o_pat.finditer ((q_pat.finditer text).get ⟨i, hi⟩).group0).map
              (fun om => extractedOf om "option")).filter (fun s => s != "") := by
  refine ⟨(q_pat.finditer text).map (blockOf o_pat),
    qblocksLoop_ok o_pat _ hq ho, ?_, ?_⟩
  · intro b hb s hs
    obtain ⟨m, _, hbm⟩ := List.mem_map.mp hb
    rw [← hbm] at hs
    simp only [blockOf, List.mem_filter] at hs
    obtain ⟨om, _, homq⟩ := List.mem_map.mp hs.1
    have hne : s ≠ "" := by
      intro hcon
      rw [hcon] at hs
      simp at hs
    obtain ⟨t, ht⟩ := extractedOf_eq_strip om "option"
    have hstrip : pyStrip s = s := by
      rw [← homq, ht, pyStrip_idem]
    exact ⟨hstrip, by rw [hstrip]; exact hne⟩
  · intro i hi hb
    simp [List.get_eq_getElem, List.getElem_map, blockOf]

/-- C9: the named-group-or-full-match fallback is taken only when the
pattern declares no group of that name.  When a declared `question` (or
`option`) group fails to participate in a match, the code raises the
attribute error from `None.strip()` instead of falling back to the full
match; when the group is simply not declared, extraction falls back to the
trimmed full match. -/
theorem claim_C9 (q_pat o_pat : RePattern) (text : String) :
    (∀ m ∈ q_pat.finditer text, m.groupdict.lookup "question" = some none →
      parse_questions_with_config q_pat o_pat text =
        .error (.attributeError "NoneType object has no attribute strip"))
    ∧ (∀ m ∈ q_pat.finditer text, ∀ om ∈ o_pat.finditer m.group0,
        om.groupdict.lookup "option" = some none →
        parse_questions_with_config q_pat o_pat text =
          .error (.attributeError "NoneType object has no attribute strip"))
    ∧ (∀ m : ReMatch, m.groupdict.lookup "question" = none →
        pyStripOpt (groupdictGet m.groupdict "question" m.group0)
          = .ok (pyStrip m.group0)) := by
  refine ⟨?_, ?_, ?_⟩
  · intro m hm hstd
    rcases qblocksLoop_err_shape o_pat (q_pat.finditer text) with ⟨bs, hbs⟩ | herr
    · exact absurd hstd (qblocksLoop_ok_implies o_pat _ bs hbs m hm).1
    · exact herr
  · intro m hm om hom hstd
    rcases qblocksLoop_err_shape o_pat (q_pat.finditer text) with ⟨bs, hbs⟩ | herr
    · exact absurd hstd ((qblocksLoop_ok_implies o_pat _ bs hbs m hm).2 om hom)
    · exact herr
  · intro m h
    simp [groupdictGet, h, pyStripOpt]

/-! ### Concrete matchers used to instantiate the extraction theorems -/

/-- A small demo document. -/
def demoText : String := "Q1. foo (A) x (B)   Q2. bar (A) z"

/-- First outer match on `demoText`. -/
def qm1 : ReMatch :=
  { group0 := "Q1. foo (A) x (B)   ", groupdict := [("question", some " foo ")] }

/-- Second outer match on `demoText`. -/
def qm2 : ReMatch :=
  { group0 := "Q2. bar (A) z", groupdict := [("question", some " bar")] }

/-- Inner matches of the first block (the second has a whitespace-only
capture and is dropped). -/
def om1 : ReMatch := { group0 := "(A) x ", groupdict := [("option", some " x ")] }

/-- Whitespace-only option capture: dropped by the truthiness filter. -/
def om2 : ReMatch := { group0 := "(B)   ", groupdict := [("option", some "   ")] }

/-- Inner match of the second block. -/
def om3 : ReMatch := { group0 := "(A) z", groupdict := [("option", some " z")] }

/-- Demo outer matcher: two question blocks on `demoText`. -/
def qDemo : RePattern :=
  { groupindex := ["question"],
    finditer := fun t => if t = demoText then [qm1, qm2] else [] }

/-- Demo inner matcher, block-scoped: fragments inside the first and
second block's full-match texts respectively, nothing elsewhere. -/
def oDemo : RePattern :=
  { groupindex := ["option"],
    finditer := fun t =>
      if t = qm1.group0 then [om1, om2]
      else if t = qm2.group0 then [om3] else [] }

/-- An outer match whose declared `question` group did not participate. -/
def mBadQ : ReMatch := { group0 := "Q1.", groupdict := [("question", none)] }

/-- Outer matcher yielding `mBadQ` on the demo document. -/
def qBadDemo : RePattern :=
  { groupindex := ["question"],
    finditer := fun t => if t = demoText then [mBadQ] else [] }

/-- An inner match whose declared `option` group did not participate. -/
def mBadO : ReMatch := { group0 := "(A)", groupdict := [("option", none)] }

/-- Inner matcher yielding `mBadO` inside the first demo block. -/
def oBadDemo : RePattern :=
  { groupindex := ["option"],
    finditer := fun t => if t = qm1.group0 then [mBadO] else [] }

theorem qDemo_wf : qDemo.Wf := by
  intro t m hm
  by_cases h : t = demoText
  · subst h
    simp [qDemo] at hm
    rcases hm with h1 | h1 <;> subst h1 <;> rfl
  · simp [qDemo, h] at hm

/-- Closed instance of C2 on the demo matchers. -/
theorem claim_C2_witness :
    qDemo.Wf
    ∧ (∃ blocks, parse_questions_with_config qDemo oDemo demoText = .ok blocks
      ∧ blocks.length = (qDemo.finditer demoText).length
      ∧ ∀ (i : Nat) (hi : i < (qDemo.finditer demoText).length) (hb : i < blocks.length),
          ("question" ∈ qDemo.groupindex →
            ∃ s, ((qDemo.finditer demoText).get ⟨i, hi⟩).groupdict.lookup "question"
                = some (some s)
              ∧ (blocks.get ⟨i, hb⟩).question = pyStrip s)
          ∧ ("question" ∉ qDemo.groupindex →
            (blocks.get ⟨i, hb⟩).question
              = pyStrip ((qDemo.finditer demoText).get ⟨i, hi⟩).group0)) :=
  ⟨qDemo_wf, claim_C2 qDemo oDemo demoText qDemo_wf (by decide) (by decide)⟩

/-- Closed instance of C3 on the demo matchers. -/
theorem claim_C3_witness :
    ∃ blocks, parse_questions_with_config qDemo oDemo demoText = .ok blocks
      ∧ blocks.length = (qDemo.finditer demoText).length
      ∧ ∀ (i : Nat) (hi : i < (qDemo.finditer demoText).length) (hb : i < blocks.length),
          (blocks.get ⟨i, hb⟩).options =
            ((oDemo.finditer ((qDemo.finditer demoText).get ⟨i, hi⟩).group0).map
              (fun om => extractedOf om "option")).filter (fun s => s != "")
          ∧ ∀ s ∈ (blocks.get ⟨i, hb⟩).options,
              ∃ om ∈ oDemo.finditer ((qDemo.finditer demoText).get ⟨i, hi⟩).group0,
                s = extractedOf om "option" :=
  claim_C3 qDemo oDemo demoText (by decide) (by decide)

/-- Closed instance of C4 on the demo matchers. -/
theorem claim_C4_witness :
    ∃ blocks, parse_questions_with_config qDemo oDemo demoText = .ok blocks
      ∧ (∀ b ∈ blocks, ∀ s ∈ b.options, pyStrip s = s ∧ pyStrip s ≠ "")
      ∧ ∀ (i : Nat) (hi : i < (qDemo.finditer demoText).length) (hb : i < blocks.length),
          (blocks.get ⟨i, hb⟩).options =
            ((oDemo.finditer ((qDemo.finditer demoText).get ⟨i, hi⟩).group0).map
              (fun om => extractedOf om "option")).filter (fun s => s != "") :=
  claim_C4 qDemo oDemo demoText (by decide) (by decide)

/-- Closed instance of C9: a non-participating declared group raises, in
the outer and in the inner scan, and an undeclared group falls back. -/
theorem claim_C9_witness :
    parse_questions_with_config qBadDemo oDemo demoText =
      .error (.attributeError "NoneType object has no attribute strip")
    ∧ parse_questions_with_config qDemo oBadDemo demoText =
      .error (.attributeError "NoneType object has no attribute strip")
    ∧ pyStripOpt (groupdictGet om1.groupdict "question" om1.group0)
        = .ok (pyStrip om1.group0) :=
  ⟨(claim_C9 qBadDemo oDemo demoText).1 mBadQ (by decide) (by decide),
   (claim_C9 qDemo oBadDemo demoText).2.1 qm1 (by decide) mBadO (by decide) (by decide),
   (claim_C9 qDemo oDemo demoText).2.2 om1 (by decide)⟩

/-- A concrete stand-in for `re.compile` used to instantiate theorems that
quantify over the regex engine. -/
def rcDemo : String → Nat → Except PyExc RePattern :=
  fun _ _ => .ok { groupindex := [], finditer := fun _ => [] }

/-- C6: a flag list containing a name whose uppercase form is not in the
recognised set makes compilation fail with the unknown-flag error (the
first such name is reported), for every regex engine — i.e. at compile
time, before any matching — both in Project5 `compile_pattern` and in
Project4 `compile_regex_from_config`. -/
theorem claim_C6 (p : String) (flags : List String) (n : String)
    (hn : n ∈ flags) (hbad : _FLAG_MAP.lookup (pyUpper n) = none) :
    (∃ bad ∈ flags, _FLAG_MAP.lookup (pyUpper bad) = none ∧
      ∀ rc : String → Nat → Except PyExc RePattern,
        compile_pattern rc p (some flags) =
          .error (.httpException 400 ("Unknown regex flag: " ++ bad)))
    ∧ (∀ (kvs : List (String × Json)) (p2 : String),
        kvs.lookup "regex" = some (.jstr p2) → pyStrip p2 ≠ "" →
        kvs.lookup "flags" = some (.jarr (flags.map Json.jstr)) →
        ∃ bad ∈ flags, _FLAG_MAP.lookup (pyUpper bad) = none ∧
          ∀ rc : String → Nat → Except PyExc RePattern,
            compile_regex_from_config rc (.parsed (.jobj kvs)) =
              .error (.httpException 400 ("Unknown regex flag: " ++ bad))) := by
  obtain ⟨bad, hb1, hb2, hb3⟩ := flagsLoop_err flags 0 ⟨n, hn, hbad⟩
  constructor
  · exact ⟨bad, hb1, hb2, fun rc => by simp [compile_pattern, hb3]⟩
  · intro kvs p2 hreg hblank hflags
    refine ⟨bad, hb1, hb2, fun rc => ?_⟩
    have hne : flags ≠ [] := by
      intro h; rw [h] at hn; cases hn
    have htruthy : pyTruthy (.jarr (flags.map Json.jstr)) = true := by
      simp [pyTruthy, List.isEmpty_iff, hne]
    simp [compile_regex_from_config, hreg, hblank, hflags, htruthy,
      allStrings_map_jstr, hb3]

/-- Closed instance of C6: the flag list `["MULTILINE", "BOGUS"]` is
rejected with the unknown-flag error by both loaders. -/
theorem claim_C6_witness :
    (∃ bad ∈ ["MULTILINE", "BOGUS"], _FLAG_MAP.lookup (pyUpper bad) = none ∧
      ∀ rc : String → Nat → Except PyExc RePattern,
        compile_pattern rc "a+" (some ["MULTILINE", "BOGUS"]) =
          .error (.httpException 400 ("Unknown regex flag: " ++ bad)))
    ∧ (∀ (kvs : List (String × Json)) (p2 : String),
        kvs.lookup "regex" = some (.jstr p2) → pyStrip p2 ≠ "" →
        kvs.lookup "flags" = some (.jarr (["MULTILINE", "BOGUS"].map Json.jstr)) →
        ∃ bad ∈ ["MULTILINE", "BOGUS"], _FLAG_MAP.lookup (pyUpper bad) = none ∧
          ∀ rc : String → Nat → Except PyExc RePattern,
            compile_regex_from_config rc (.parsed (.jobj kvs)) =
              .error (.httpException 400 ("Unknown regex flag: " ++ bad))) :=
  claim_C6 "a+" ["MULTILINE", "BOGUS"] "BOGUS" (by decide) (by decide)

/-- C7: flag lists with the same set of recognised names (any order, any
duplication) compile to the same matcher; the combined value is the
bitwise union of the individual flag values; `None` and `[]` both apply no
flags. -/
theorem claim_C7 (rc : String → Nat → Except PyExc RePattern) (p : String)
    (l1 l2 : List String)
    (h1 : ∀ n ∈ l1, (_FLAG_MAP.lookup (pyUpper n)).isSome = true)
    (h2 : ∀ n ∈ l2, (_FLAG_MAP.lookup (pyUpper n)).isSome = true)
    (hset : (l1.map pyUpper).toFinset = (l2.map pyUpper).toFinset) :
    compile_pattern rc p (some l1) = compile_pattern rc p (some l2)
    ∧ flagsLoop 0 l1 = .ok (orFold (l1.map flagValU))
    ∧ compile_pattern rc p none = rc p 0
    ∧ compile_pattern rc p (some []) = rc p 0 := by
  have hv1 := flagsLoop_ok l1 h1 0
  have hv2 := flagsLoop_ok l2 h2 0
  have hmap : ∀ l : List String, l.map flagValU =
      (l.map pyUpper).map (fun u => (_FLAG_MAP.lookup u).getD 0) := by
    intro l; rw [List.map_map]; rfl
  have hfs : (l1.map flagValU).toFinset = (l2.map flagValU).toFinset := by
    rw [hmap, hmap]
    exact toFinset_map_congr _ _ _ hset
  have hor : orFold (l1.map flagValU) = orFold (l2.map flagValU) :=
    orFold_eq_of_toFinset_eq _ _ hfs
  refine ⟨?_, by simpa using hv1, ?_, ?_⟩
  · simp only [compile_pattern, Option.getD_some, hv1, hv2, Nat.zero_or] at *
    rw [hor]
  · simp [compile_pattern, flagsLoop]
  · simp [compile_pattern, flagsLoop]

/-- Closed instance of C7: `["IGNORECASE", "MULTILINE", "MULTILINE"]` and
`["multiline", "IgnoreCase"]` compile identically, and the union value of
the first list is 2 ||| 8 = 10. -/
theorem claim_C7_witness :
    compile_pattern rcDemo "a+" (some ["IGNORECASE", "MULTILINE", "MULTILINE"]) =
      compile_pattern rcDemo "a+" (some ["multiline", "IgnoreCase"])
    ∧ flagsLoop 0 ["IGNORECASE", "MULTILINE", "MULTILINE"] =
        .ok (orFold (["IGNORECASE", "MULTILINE", "MULTILINE"].map flagValU))
    ∧ compile_pattern rcDemo "a+" none = rcDemo "a+" 0
    ∧ compile_pattern rcDemo "a+" (some []) = rcDemo "a+" 0 :=
  claim_C7 rcDemo "a+" ["IGNORECASE", "MULTILINE", "MULTILINE"]
    ["multiline", "IgnoreCase"] (by decide) (by decide) (by decide)

/-- A looked-up pattern key is bad when it does not hold a non-blank JSON
string (absent, wrong type, or blank after stripping). -/
def BadPatternKey (v : Option Json) : Prop :=
  ∀ s, v = some (.jstr s) → pyStrip s = ""

/-- Counterexample to C8 as stated: a source holding valid JSON that is a
top-level array (readable structured data that cannot be parsed as the
expected schema) makes `load_regex_config` raise a raw `AttributeError`
(`data.get` on a list), which is none of ConfigNotFound, ConfigMalformed,
ConfigIncomplete — a raw error escapes the boundary. -/
theorem claim_C8_cex :
    load_regex_config (.parsed (.jarr [])) =
      .error (.attributeError "object has no attribute get") := rfl

/-- C8 amended: `load_regex_config` fails with the not-found error when the
source does not resolve to a readable file, with the parse error when the
text is not valid JSON, and — provided the parsed data is a JSON object —
with the missing-key error when the required `question_regex` or
`option_regex` key is absent, not a string, or blank, and succeeds with
exactly those two patterns otherwise; but when the parsed data is not an
object, a raw `AttributeError` escapes instead of a normalized error. -/
theorem claim_C8 :
    load_regex_config .missing = .error (.httpException 404 "Config file not found")
    ∧ load_regex_config .invalidJson =
        .error (.httpException 400 "Failed to parse config JSON")
    ∧ (∀ (kvs : List (String × Json)) (q o : String),
        kvs.lookup "question_regex" = some (.jstr q) → pyStrip q ≠ "" →
        kvs.lookup "option_regex" = some (.jstr o) → pyStrip o ≠ "" →
        load_regex_config (.parsed (.jobj kvs)) =
          .ok { question_regex := q, option_regex := o,
                question_flags := (kvs.lookup "question_flags").getD (.jarr []),
                option_flags := (kvs.lookup "option_flags").getD (.jarr []) })
    ∧ (∀ kvs : List (String × Json), BadPatternKey (kvs.lookup "question_regex") →
        load_regex_config (.parsed (.jobj kvs)) =
          .error (.httpException 400 "Config is missing question_regex string."))
    ∧ (∀ (kvs : List (String × Json)) (q : String),
        kvs.lookup "question_regex" = some (.jstr q) → pyStrip q ≠ "" →
        BadPatternKey (kvs.lookup "option_regex") →
        load_regex_config (.parsed (.jobj kvs)) =
          .error (.httpException 400 "Config is missing option_regex string."))
    ∧ (∀ data : Json, (∀ kvs, data ≠ .jobj kvs) →
        load_regex_config (.parsed data) =
          .error (.attributeError "object has no attribute get")) := by
  refine ⟨rfl, rfl, ?_, ?_, ?_, ?_⟩
  · intro kvs q o hq hqs ho hos
    simp [load_regex_config, hq, hqs, ho, hos]
  · intro kvs hbad
    cases hL : kvs.lookup "question_regex" with
    | none => simp [load_regex_config, hL]
    | some j =>
      cases j with
      | jstr s =>
        have : pyStrip s = "" := hbad s (by rw [hL])
        simp [load_regex_config, hL, this]
      | null => simp [load_regex_config, hL]
      | jbool b => simp [load_regex_config, hL]
      | jnum n => simp [load_regex_config, hL]
      | jarr xs => simp [load_regex_config, hL]
      | jobj kvs2 => simp [load_regex_config, hL]
  · intro kvs q hq hqs hbad
    cases hL : kvs.lookup "option_regex" with
    | none => simp [load_regex_config, hq, hqs, hL]
    | some j =>
      cases j with
      | jstr s =>
        have : pyStrip s = "" := hbad s (by rw [hL])
        simp [load_regex_config, hq, hqs, hL, this]
      | null => simp [load_regex_config, hq, hqs, hL]
      | jbool b => simp [load_regex_config, hq, hqs, hL]
      | jnum n => simp [load_regex_config, hq, hqs, hL]
      | jarr xs => simp [load_regex_config, hq, hqs, hL]
      | jobj kvs2 => simp [load_regex_config, hq, hqs, hL]
  · intro data hne
    cases data with
    | jobj kvs => exact absurd rfl (hne kvs)
    | null => rfl
    | jbool b => rfl
    | jnum n => rfl
    | jstr s => rfl
    | jarr xs => rfl

/-- Closed instance of the amended C8: a complete config loads, a config
missing `option_regex` is ConfigIncomplete, and a JSON string at top level
escapes as a raw attribute error. -/
theorem claim_C8_witness :
    load_regex_config (.parsed (.jobj
        [("question_regex", .jstr "Q"), ("option_regex", .jstr "O")])) =
      .ok { question_regex := "Q", option_regex := "O",
            question_flags := .jarr [], option_flags := .jarr [] }
    ∧ load_regex_config (.parsed (.jobj [("question_regex", .jstr "Q")])) =
        .error (.httpException 400 "Config is missing option_regex string.")
    ∧ load_regex_config (.parsed (.jstr "oops")) =
        .error (.attributeError "object has no attribute get") :=
  ⟨claim_C8.2.2.1 [("question_regex", .jstr "Q"), ("option_regex", .jstr "O")]
      "Q" "O" rfl (by decide) rfl (by decide),
   claim_C8.2.2.2.2.1 [("question_regex", .jstr "Q")] "Q" rfl (by decide)
      (by intro s hs; cases hs),
   claim_C8.2.2.2.2.2 (.jstr "oops") (by intro kvs h; cases h)⟩

/-- C10: flag names are recognised case-insensitively — a name whose
uppercase form has a flag value is accepted and ORs exactly that value in;
a name whose uppercase form is unknown is rejected; the recognised
uppercase forms are exactly the six names; and two flag lists that agree
after uppercasing (all recognised) compile to the same matcher. -/
theorem claim_C10 :
    (∀ (acc : Nat) (n : String) (rest : List String) (v : Nat),
      _FLAG_MAP.lookup (pyUpper n) = some v →
      flagsLoop acc (n :: rest) = flagsLoop (acc ||| v) rest)
    ∧ (∀ (acc : Nat) (n : String) (rest : List String),
      _FLAG_MAP.lookup (pyUpper n) = none →
      flagsLoop acc (n :: rest) =
        .error (.httpException 400 ("Unknown regex flag: " ++ n)))
    ∧ (∀ u : String, (_FLAG_MAP.lookup u).isSome = true ↔ u ∈ recognizedNames)
    ∧ (∀ (rc : String → Nat → Except PyExc RePattern) (p : String)
        (l1 l2 : List String), l1.map pyUpper = l2.map pyUpper →
        (∀ n ∈ l1, (_FLAG_MAP.lookup (pyUpper n)).isSome = true) →
        compile_pattern rc p (some l1) = compile_pattern rc p (some l2)) := by
  refine ⟨?_, ?_, lookup_FLAG_MAP_isSome, ?_⟩
  · intro acc n rest v hv
    simp [flagsLoop, hv]
  · intro acc n rest hnone
    simp [flagsLoop, hnone]
  · intro rc p l1 l2 hup h1
    have h2 : ∀ n ∈ l2, (_FLAG_MAP.lookup (pyUpper n)).isSome = true := by
      intro n hn
      have : pyUpper n ∈ l2.map pyUpper := List.mem_map_of_mem _ hn
      rw [← hup] at this
      obtain ⟨m, hm, hmeq⟩ := List.mem_map.mp this
      rw [← hmeq]
      exact h1 m hm
    have hv1 := flagsLoop_ok l1 h1 0
    have hv2 := flagsLoop_ok l2 h2 0
    have hor : orFold (l1.map flagValU) = orFold (l2.map flagValU) := by
      have : l1.map flagValU = l2.map flagValU := by
        have e : ∀ l : List String, l.map flagValU =
            (l.map pyUpper).map (fun u => (_FLAG_MAP.lookup u).getD 0) := by
          intro l; rw [List.map_map]; rfl
        rw [e, e, hup]
      rw [this]
    simp only [compile_pattern, Option.getD_some, hv1, hv2, Nat.zero_or]
    rw [hor]

/-- Closed instance of C10: `"ignorecase"` is accepted with value 2,
`"BOGUS"` is rejected, `"VERBOSE"` is among the recognised names, and
`["IgnoreCase"]` compiles identically to `["IGNORECASE"]`. -/
theorem claim_C10_witness :
    flagsLoop 0 ["ignorecase"] = flagsLoop (0 ||| 2) []
    ∧ flagsLoop 7 ["BOGUS"] =
        .error (.httpException 400 ("Unknown regex flag: " ++ "BOGUS"))
    ∧ ((_FLAG_MAP.lookup "VERBOSE").isSome = true ↔ "VERBOSE" ∈ recognizedNames)
    ∧ compile_pattern rcDemo "a+" (some ["IgnoreCase"]) =
        compile_pattern rcDemo "a+" (some ["IGNORECASE"]) :=
  ⟨claim_C10.1 0 "ignorecase" [] 2 (by decide),
   claim_C10.2.1 7 "BOGUS" [] (by decide),
   claim_C10.2.2.1 "VERBOSE",
   claim_C10.2.2.2 rcDemo "a+" ["IgnoreCase"] ["IGNORECASE"] (by decide) (by decide)⟩

/-! ### Claims about validation and persistence (Project8) -/

theorem validateBase_nil (b : QuestionBaseIn)
    (hsub : 1 ≤ b.subject_name.length) (hqt : 1 ≤ b.question_text.length)
    (hps : ∀ n, b.page_start = some n → 0 < n)
    (hpe : ∀ n, b.page_end = some n → 0 < n) :
    validateBase b = [] := by
  have h1 : ¬ (b.subject_name.length < 1) := by omega
  have h2 : ¬ (b.question_text.length < 1) := by omega
  cases hp : b.page_start with
  | none =>
    cases hq : b.page_end with
    | none => simp [validateBase, h1, h2, hp, hq]
    | some k =>
      have hk : ¬ (k ≤ 0) := by have := hpe k hq; omega
      simp [validateBase, h1, h2, hp, hq, hk]
  | some n =>
    have hn : ¬ (n ≤ 0) := by have := hps n hp; omega
    cases hq : b.page_end with
    | none => simp [validateBase, h1, h2, hp, hq, hn]
    | some k =>
      have hk : ¬ (k ≤ 0) := by have := hpe k hq; omega
      simp [validateBase, h1, h2, hp, hq, hn, hk]

/-- C1: an MCQ payload with fewer than two answer options is rejected by
the pydantic validator with the insufficient-options message before the
handler runs — the database is returned untouched, for every failure
injection and every initial state — while a payload with at least two
options (and valid base fields) validates successfully with its
`answer_options` list unchanged. -/
theorem claim_C1 (fail : WTarget → Bool) (db : DB) (b : QuestionBaseIn)
    (optsShort optsOk : List String)
    (hshort : optsShort.length < 2) (hok : 2 ≤ optsOk.length)
    (hsub : 1 ≤ b.subject_name.length) (hqt : 1 ≤ b.question_text.length)
    (hps : ∀ n, b.page_start = some n → 0 < n)
    (hpe : ∀ n, b.page_end = some n → 0 < n) :
    (∃ msgs, post_questions fail db (.mcq b optsShort)
        = (.error (.validationError msgs), db)
      ∧ "MCQ requires at least two options." ∈ msgs)
    ∧ validateQuestionIn (.mcq b optsOk) = .ok (.mcq b optsOk) := by
  constructor
  · refine ⟨validateBase b ++ ["MCQ requires at least two options."], ?_, by simp⟩
    have herrs : validateQuestionIn (.mcq b optsShort)
        = .error (validateBase b ++ ["MCQ requires at least two options."]) := by
      simp [validateQuestionIn, hshort]
    simp [post_questions, herrs]
  · have hne : ¬ (optsOk.length < 2) := by omega
    have hemp : optsOk.isEmpty = false := by
      cases optsOk with
      | nil => simp at hok
      | cons x xs => rfl
    simp [validateQuestionIn, hne, hemp, validateBase_nil b hsub hqt hps hpe]

/-- C5: persistence is atomic.  For every payload, initial state and
failure injection, `create_question` either fails with the 500
persistence error and returns the state unchanged (full rollback — no
partial write is ever observable), or succeeds having appended exactly one
base row and the matching variant extension row under the same generated
id; in particular an injected failure on the extension-table write leaves
every table as it was. -/
theorem claim_C5 (fail : WTarget → Bool) (db : DB) (q : QuestionIn) :
    (((create_question fail db q).2 = db
        ∧ ∃ d, (create_question fail db q).1 = .error (.httpException 500 d))
      ∨ ((create_question fail db q).2
          = insertExt { db with questions := db.questions ++ [mkBaseRow (nextId db) q] }
              (nextId db) q
        ∧ (create_question fail db q).2.questions
            = db.questions ++ [mkBaseRow (nextId db) q]
        ∧ (create_question fail db q).1 = .ok (nextId db, typeTag q)))
    ∧ (fail (extTarget q) = true →
        (create_question fail db q).2 = db
        ∧ ∃ d, (create_question fail db q).1 = .error (.httpException 500 d)) := by
  by_cases hb : fail .baseTable = true
  · have hres : create_question fail db q =
        (.error (.httpException 500 "Failed to store question: insert into questions failed"), db) := by
      simp [create_question, repo_add, hb]
    refine ⟨.inl ⟨by rw [hres], ⟨_, by rw [hres]⟩⟩, fun _ => ⟨by rw [hres], ⟨_, by rw [hres]⟩⟩⟩
  · have hb' : fail .baseTable = false := by
      cases h : fail .baseTable
      · rfl
      · exact absurd h hb
    by_cases he : fail (extTarget q) = true
    · have hres : create_question fail db q =
          (.error (.httpException 500 "Failed to store question: insert into extension table failed"), db) := by
        simp [create_question, repo_add, hb', he]
      refine ⟨.inl ⟨by rw [hres], ⟨_, by rw [hres]⟩⟩, fun _ => ⟨by rw [hres], ⟨_, by rw [hres]⟩⟩⟩
    · have he' : fail (extTarget q) = false := by
        cases h : fail (extTarget q)
        · rfl
        · exact absurd h he
      have hres : create_question fail db q =
          (.ok (nextId db, typeTag q),
            insertExt { db with questions := db.questions ++ [mkBaseRow (nextId db) q] }
              (nextId db) q) := by
        simp [create_question, repo_add, hb', he']
      refine ⟨.inr ⟨by rw [hres], ?_, by rw [hres]⟩, fun hcon => absurd hcon (by simp [he'])⟩
      rw [hres]
      cases q <;> simp [insertExt]

/-- Empty database. -/
def dbEmpty : DB :=
  { questions := [], questions_subjective := [], questions_truefalse := [],
    questions_mcq := [] }

/-- Failure injection that makes only the MCQ extension-table insert fail. -/
def failExtDemo : WTarget → Bool :=
  fun t => match t with
  | .mcqTable => true
  | _ => false

/-- No injected failures. -/
def failNone : WTarget → Bool := fun _ => false

/-- Valid base fields for a demo payload. -/
def baseDemo : QuestionBaseIn :=
  { subject_name := "Math", chapter_name := none, question_text := "2+2?",
    source_file := none, page_start := none, page_end := none }

/-- A valid demo MCQ payload. -/
def qDemoMCQ : QuestionIn := .mcq baseDemo ["3", "4"]

/-- Closed instance of C1: one option is rejected with the
insufficient-options message and no state change; two options validate
unchanged. -/
theorem claim_C1_witness :
    (∃ msgs, post_questions failNone dbEmpty (.mcq baseDemo ["A"])
        = (.error (.validationError msgs), dbEmpty)
      ∧ "MCQ requires at least two options." ∈ msgs)
    ∧ validateQuestionIn (.mcq baseDemo ["A", "B"]) = .ok (.mcq baseDemo ["A", "B"]) :=
  claim_C1 failNone dbEmpty baseDemo ["A"] ["A", "B"] (by decide) (by decide)
    (by decide) (by decide)
    (by intro n h; simp [baseDemo] at h) (by intro n h; simp [baseDemo] at h)

/-- Closed instance of C5: with a failure injected on the MCQ
extension-table write, storing a valid MCQ record fails with the 500
persistence error and afterwards both the base table and the extension
table hold zero rows. -/
theorem claim_C5_witness :
    ((create_question failExtDemo dbEmpty qDemoMCQ).2 = dbEmpty
      ∧ ∃ d, (create_question failExtDemo dbEmpty qDemoMCQ).1
          = .error (.httpException 500 d))
    ∧ (create_question failExtDemo dbEmpty qDemoMCQ).2.questions.length = 0
    ∧ (create_question failExtDemo dbEmpty qDemoMCQ).2.questions_mcq.length = 0 :=
  ⟨(claim_C5 failExtDemo dbEmpty qDemoMCQ).2 (by decide), by decide, by decide⟩

end QPipe
